import Mathlib

/-!
Shallow embedding of the core of `app_v3.py` / `config_v3.py`: the browser
resource manager, the result cache, the query pipeline (aggregate parsing,
row parsing, profit derivation) and API-key validation.

Modelling conventions: Python floats are rationals (`ℚ`), wall-clock
timestamps are rationals, a raised exception is `none` in an `Option`
result, and the mutable module-level globals become explicit state values.
-/

namespace AppV3

/-- Python `str.strip()`: remove surrounding whitespace. -/
def pyStrip (s : String) : String :=
  String.mk (((s.data.dropWhile Char.isWhitespace).reverse.dropWhile
    Char.isWhitespace).reverse)

/-- Python `s.replace(c, '')`: delete every occurrence of the character `c`. -/
def stripChar (c : Char) (s : String) : String :=
  String.mk (s.data.filter (fun d => d != c))

/-- Value of a base-10 digit list. -/
def digitsToNat (l : List Char) : Nat :=
  l.foldl (fun a c => a * 10 + (c.toNat - 48)) 0

/-- Python `int(s)`: optional sign followed by a nonempty digit string,
surrounding whitespace tolerated; `none` models a raised `ValueError`. -/
def pyInt (s : String) : Option Int :=
  match (pyStrip s).data with
  | '-' :: rest =>
      if !rest.isEmpty && rest.all Char.isDigit then
        some (-(digitsToNat rest : Int))
      else none
  | '+' :: rest =>
      if !rest.isEmpty && rest.all Char.isDigit then
        some (digitsToNat rest : Int)
      else none
  | t =>
      if !t.isEmpty && t.all Char.isDigit then
        some (digitsToNat t : Int)
      else none

/-- Unsigned decimal mantissa of Python `float`: digits with at most one
dot and at least one digit overall (exponent forms are not needed here).
The integer part is everything before the first dot, the fractional part
everything after it. -/
def pyFloatCore (l : List Char) : Option ℚ :=
  match l.dropWhile (fun c => c != '.') with
  | [] =>
      if !l.isEmpty && l.all Char.isDigit then
        some (digitsToNat l : ℚ)
      else none
  | _ :: fp =>
      let ip := l.takeWhile (fun c => c != '.')
      if !(fp.any (fun c => c == '.')) && !(ip ++ fp).isEmpty &&
          ip.all Char.isDigit && fp.all Char.isDigit then
        some ((digitsToNat (ip ++ fp) : ℚ) / ((10 : ℚ) ^ fp.length))
      else none

/-- Python `float(s)` on decimal literals; `none` models a raised
`ValueError`. -/
def pyFloat (s : String) : Option ℚ :=
  match (pyStrip s).data with
  | '-' :: rest => (pyFloatCore rest).map (fun q => -q)
  | '+' :: rest => pyFloatCore rest
  | t => pyFloatCore t

/-- `config_v3.PROFIT_COEFFICIENTS` (config_v3.py lines 209-214). -/
structure ProfitCoefficients where
  default : ℚ
  high_value : ℚ
  low_value : ℚ
  special_case : ℚ
deriving Repr, DecidableEq

/-- The configured coefficient table: 1.0, 1.2, 0.8, 1.5. -/
def PROFIT_COEFFICIENTS : ProfitCoefficients :=
  ⟨1, 6 / 5, 4 / 5, 3 / 2⟩

/-- The profit tier rule applied to each record (app_v3.py lines 269-275). -/
def computeProfit (amount : ℚ) : ℚ :=
  if amount > 10000 then amount * PROFIT_COEFFICIENTS.high_value
  else if amount < 1000 then amount * PROFIT_COEFFICIENTS.low_value
  else amount * PROFIT_COEFFICIENTS.default

/-- A parsed table row before profit derivation (app_v3.py lines 250-256). -/
structure RawRecord where
  id : String
  date : String
  amount : ℚ
  status : String
  details : String
deriving Repr, DecidableEq

/-- A record after the profit loop added the `profit` field. -/
structure Record where
  id : String
  date : String
  amount : ℚ
  status : String
  details : String
  profit : ℚ
deriving Repr, DecidableEq

/-- The profit loop body (lines 269-275) on one record. -/
def applyProfit (r : RawRecord) : Record :=
  ⟨r.id, r.date, r.amount, r.status, r.details, computeProfit r.amount⟩

/-- The `total_stats` dict (app_v3.py lines 198-203 and 237-242). -/
structure TotalStats where
  total_count : Int
  total_amount : ℚ
  average_amount : ℚ
  success_rate : ℚ
deriving Repr, DecidableEq

/-- Truthiness of an optional string (Python `if text`): `None` and the
empty string are falsy. -/
def pyTruthy : Option String → Bool
  | none => false
  | some s => !s.data.isEmpty

/-- Line 238: `int(total_count_text.strip().replace(',', '')) if
total_count_text else 0`. -/
def parse_total_count (t : Option String) : Option Int :=
  if pyTruthy t then pyInt (stripChar ',' (pyStrip (t.getD ""))) else some 0

/-- Lines 239-240: `float(text.strip().replace(',', '').replace('¥', ''))
if text else 0`, used for `total_amount` and `average_amount`. -/
def parse_amount_field (t : Option String) : Option ℚ :=
  if pyTruthy t then pyFloat (stripChar '¥' (stripChar ',' (pyStrip (t.getD ""))))
  else some 0

/-- Line 241: `float(success_rate_text.strip().replace('%', '')) / 100 if
success_rate_text else 0`. -/
def parse_success_rate (t : Option String) : Option ℚ :=
  if pyTruthy t then (pyFloat (stripChar '%' (pyStrip (t.getD "")))).map (fun q => q / 100)
  else some 0

/-- The aggregate block at lines 237-242; `none` models a coercion error
escaping the dict construction. -/
def parse_total_stats (tc ta aa sr : Option String) : Option TotalStats := do
  let c ← parse_total_count tc
  let a ← parse_amount_field ta
  let v ← parse_amount_field aa
  let r ← parse_success_rate sr
  some ⟨c, a, v, r⟩

/-- The row-extraction loop at lines 247-257: a row with fewer than five
cells is skipped, otherwise cells 0..4 become a record; `none` models a
`float` coercion error raised on the amount cell. -/
def parse_rows : List (List String) → Option (List RawRecord)
  | [] => some []
  | row :: rest =>
      if row.length ≥ 5 then
        match pyFloat (stripChar '¥' (stripChar ',' (pyStrip (row.getD 2 "")))),
              parse_rows rest with
        | some amt, some rs =>
            some (⟨pyStrip (row.getD 0 ""), pyStrip (row.getD 1 ""), amt,
                   pyStrip (row.getD 3 ""), pyStrip (row.getD 4 "")⟩ :: rs)
        | _, _ => none
      else parse_rows rest

/-- The `query_info` echo at lines 281-287 (the wall-clock timestamp field
is omitted from the model). -/
structure QueryInfo where
  project_id : String
  uk_code : String
  start_date : String
  end_date : String
deriving Repr, DecidableEq

/-- The response dict assembled at lines 277-288. -/
structure QueryResult where
  status : String
  data : List Record
  stats : TotalStats
  query_info : QueryInfo
deriving Repr, DecidableEq

/-- `query_data` (lines 192-288) past the browser interaction, taking the
four aggregate texts returned by `text_content` and the table rows as cell
texts: parse the aggregates, parse the rows, derive `profit` per record and
assemble the response; `none` models an exception escaping the call. -/
def query_data (project_id uk_code start_date end_date : String)
    (tc ta aa sr : Option String) (rows : List (List String)) :
    Option QueryResult := do
  let stats ← parse_total_stats tc ta aa sr
  let raws ← parse_rows rows
  some ⟨"success", raws.map applyProfit, stats,
        ⟨project_id, uk_code, start_date, end_date⟩⟩

/-- `query_cache` (line 54): a finite map from cache keys to
(result, insertion timestamp). -/
abbrev Cache (α : Type) := List (String × α × ℚ)

/-- Dict membership plus read: `query_cache[cache_key]` (lines 135-136). -/
def cacheLookup {α : Type} (c : Cache α) (k : String) : Option (α × ℚ) :=
  (c.find? (fun e => e.1 == k)).map (fun e => e.2)

/-- Dict assignment `query_cache[cache_key] = (result, time.time())`
(line 146): update in place if present, append otherwise. -/
def cacheStore {α : Type} (c : Cache α) (k : String) (v : α × ℚ) : Cache α :=
  if c.any (fun e => e.1 == k) then
    c.map (fun e => if e.1 == k then (k, v) else e)
  else c ++ [(k, v)]

/-- The expired-entry cleanup at lines 149-152: delete every entry whose
age satisfies `current_time - t > timeout` (strictly). -/
def cachePurge {α : Type} (c : Cache α) (now timeout : ℚ) : Cache α :=
  c.filter (fun e => !(decide (now - e.2.2 > timeout)))

/-- First critical section of the `cache_result` wrapper (lines 133-139):
under `cache_lock`, return the cached result if present and fresh
(`time.time() - timestamp < timeout`). -/
def checkPhase {α : Type} (c : Cache α) (timeout : ℚ) (key : String)
    (now : ℚ) : Option α :=
  match cacheLookup c key with
  | some rv => if now - rv.2 < timeout then some rv.1 else none
  | none => none

/-- Second critical section (lines 145-152): under `cache_lock`, store the
fresh result with timestamp `tStore`, then purge with `current_time =
tClean` (the two adjacent `time.time()` reads at lines 146 and 149). -/
def storePhase {α : Type} (c : Cache α) (key : String) (r : α)
    (tStore tClean timeout : ℚ) : Cache α :=
  cachePurge (cacheStore c key (r, tStore)) tClean timeout

/-- Outcome of one wrapper call: its return value, the cache it leaves
behind, and whether the wrapped function was invoked. -/
structure CacheOutcome (α : Type) where
  result : α
  cache : Cache α
  computed : Bool
deriving Repr, DecidableEq

/-- One call of the `cache_result` wrapper (lines 129-154): check under the
lock at time `tCheck`; on a miss or an expired entry run `f` with the lock
released, then store and purge under the lock again. -/
def cache_result {α : Type} (c : Cache α) (timeout : ℚ) (key : String)
    (f : Unit → α) (tCheck tStore tClean : ℚ) : CacheOutcome α :=
  match checkPhase c timeout key tCheck with
  | some r => ⟨r, c, false⟩
  | none => ⟨f (), storePhase c key (f ()) tStore tClean timeout, true⟩

/-- An interleaving of two wrapper calls for the same key in which both
check phases run before either caller computes and stores — admissible
because `cache_lock` is released between line 139 and line 145. Caller A
checks at `tA`, then B checks at `tB`, then each caller that missed runs
its function and performs its store phase (A before B). -/
def twoCallerSchedule {α : Type} (c : Cache α) (timeout : ℚ) (key : String)
    (fA fB : Unit → α) (tA tB tSA tCA tSB tCB : ℚ) :
    CacheOutcome α × CacheOutcome α × Cache α :=
  let hitA := checkPhase c timeout key tA
  let hitB := checkPhase c timeout key tB
  let stepA : CacheOutcome α :=
    match hitA with
    | some r => ⟨r, c, false⟩
    | none => ⟨fA (), storePhase c key (fA ()) tSA tCA timeout, true⟩
  let stepB : CacheOutcome α :=
    match hitB with
    | some r => ⟨r, stepA.cache, false⟩
    | none => ⟨fB (), storePhase stepA.cache key (fB ()) tSB tCB timeout, true⟩
  (stepA, stepB, stepB.cache)

/-- Number of fetch-function invocations in a pair of outcomes. -/
def fetchCount {α : Type} (o : CacheOutcome α × CacheOutcome α × Cache α) : Nat :=
  (if o.1.computed then 1 else 0) + (if o.2.1.computed then 1 else 0)

/-- A launched browser instance; `is_connected()` observes `connected`. -/
structure BrowserInstance where
  connected : Bool
deriving Repr, DecidableEq

/-- The module-level globals of app_v3.py (lines 49-50):
`playwright_instance` is modelled by whether it is non-None, and
`browser_instance` is `none` when the Python global is `None`. -/
structure AppState where
  playwright_instance : Bool
  browser_instance : Option BrowserInstance
deriving Repr, DecidableEq

/-- `browser_instance is None or not browser_instance.is_connected()`
gives `!is_connected`; `is_connected none` stands for the `is None` arm. -/
def is_connected : Option BrowserInstance → Bool
  | none => false
  | some b => b.connected

/-- `init_playwright` (lines 58-84), successful-launch path: when
`playwright_instance is None` it starts Playwright and launches a fresh
connected browser; otherwise the entire body is skipped. -/
def init_playwright (s : AppState) : AppState :=
  if s.playwright_instance then s else ⟨true, some ⟨true⟩⟩

/-- `close_playwright` (lines 87-106): closes the browser and stops
Playwright, resetting both globals to `None`. -/
def close_playwright (_s : AppState) : AppState := ⟨false, none⟩

/-- `get_browser_context` (lines 109-122): under `browser_lock`, call
`init_playwright` when the browser is absent or disconnected, then create
a context from `browser_instance`. The first component is the browser the
returned context is created from (`none` when `browser_instance` is still
`None`). -/
def get_browser_context (s : AppState) : Option BrowserInstance × AppState :=
  let s' :=
    if s.browser_instance.isNone || !(is_connected s.browser_instance) then
      init_playwright s
    else s
  (s'.browser_instance, s')

/-- The repair performed by the `/health` route (lines 374-380):
`close_playwright()` then `init_playwright()` under `browser_lock`. -/
def health_check_repair (s : AppState) : AppState :=
  init_playwright (close_playwright s)

/-- The configured credentials (config_v3.py lines 28-29). -/
structure ApiConfig where
  DEFAULT_AUTH_KEY : String
  DEFAULT_APP_ID : String
deriving Repr, DecidableEq

/-- `validate_api_key` (app_v3.py lines 185-189). -/
def validate_api_key (cfg : ApiConfig) (auth_key app_id : String) : Bool :=
  auth_key == cfg.DEFAULT_AUTH_KEY && app_id == cfg.DEFAULT_APP_ID

/-- The JSON body of a request to `/api/query`; a field absent from the
body is `none`. -/
structure ApiRequest where
  project_id : Option String
  uk_code : Option String
  start_date : Option String
  end_date : Option String
  auth_key : Option String
  app_id : Option String
deriving Repr, DecidableEq

/-- Line 317: `data.get('auth_key', config.DEFAULT_AUTH_KEY)`. -/
def extract_auth_key (cfg : ApiConfig) (r : ApiRequest) : String :=
  r.auth_key.getD cfg.DEFAULT_AUTH_KEY

/-- Line 318: `data.get('app_id', config.DEFAULT_APP_ID)`. -/
def extract_app_id (cfg : ApiConfig) (r : ApiRequest) : String :=
  r.app_id.getD cfg.DEFAULT_APP_ID

/-- The authentication decision taken by `api_query` at line 330. -/
def api_query_auth (cfg : ApiConfig) (r : ApiRequest) : Bool :=
  validate_api_key cfg (extract_auth_key cfg r) (extract_app_id cfg r)

/-! ## Helper lemmas -/

/-- Every entry of `cacheStore c k v` whose key is `k` is exactly `(k, v)`:
dict assignment overwrites the old binding. -/
theorem cacheStore_entry_eq {α : Type} (c : Cache α) (k : String) (v : α × ℚ) :
    ∀ e ∈ cacheStore c k v, e.1 = k → e = (k, v) := by
  intro e he hk
  unfold cacheStore at he
  split at he
  · obtain ⟨e', -, he'⟩ := List.mem_map.mp he
    by_cases h' : (e'.1 == k) = true
    · rw [if_pos h'] at he'
      exact he'.symm
    · rw [if_neg h'] at he'
      subst he'
      exact absurd (beq_iff_eq.mpr hk) h'
  · rename_i hany
    rcases List.mem_append.mp he with h1 | h1
    · exact absurd (List.any_eq_true.mpr
        ⟨e, h1, show (e.1 == k) = true from beq_iff_eq.mpr hk⟩) hany
    · simpa using h1

/-- The freshly stored entry is a member of the cache. -/
theorem cacheStore_mem {α : Type} (c : Cache α) (k : String) (v : α × ℚ) :
    (k, v) ∈ cacheStore c k v := by
  unfold cacheStore
  split
  · rename_i h
    obtain ⟨e, he, hke⟩ := List.any_eq_true.mp h
    exact List.mem_map.mpr ⟨e, he, by rw [if_pos hke]⟩
  · exact List.mem_append.mpr (Or.inr (by simp))

/-- Looking up `key` right after the store-and-purge phase finds the fresh
entry, provided the purge time does not already expire it. -/
theorem cacheLookup_storePhase_self {α : Type} (c : Cache α) (key : String)
    (r : α) (tStore tClean timeout : ℚ) (h : tClean - tStore ≤ timeout) :
    cacheLookup (storePhase c key r tStore tClean timeout) key
      = some (r, tStore) := by
  have hmem : (key, (r, tStore)) ∈
      cachePurge (cacheStore c key (r, tStore)) tClean timeout := by
    refine List.mem_filter.mpr ⟨cacheStore_mem c key (r, tStore), ?_⟩
    simp only [Bool.not_eq_true', decide_eq_false_iff_not]
    exact not_lt.mpr h
  unfold storePhase cacheLookup
  cases hf : List.find? (fun e => e.1 == key)
      (cachePurge (cacheStore c key (r, tStore)) tClean timeout) with
  | none =>
      exact absurd (by simp : ((key, (r, tStore)).1 == key) = true)
        (List.find?_eq_none.mp hf _ hmem)
  | some e =>
      have hm : e ∈ cacheStore c key (r, tStore) :=
        (List.mem_filter.mp (List.mem_of_find?_eq_some hf)).1
      have hp := List.find?_some hf
      have he : e = (key, (r, tStore)) :=
        cacheStore_entry_eq c key (r, tStore) e hm (by simpa using hp)
      rw [he]
      rfl

/-- `getD` commutes with `take` below the cut. -/
theorem getD_take_of_lt {α : Type} (l : List α) (d : α) (i n : Nat)
    (h : i < n) : (l.take n).getD i d = l.getD i d := by
  rw [List.getD_eq_getElem?_getD, List.getElem?_take, if_pos h,
    ← List.getD_eq_getElem?_getD]

/-- Unfolding a successful `query_data` call into its parsing phases. -/
theorem query_data_some_iff {pid uk sd ed : String} {tc ta aa sr : Option String}
    {rows : List (List String)} {res : QueryResult} :
    query_data pid uk sd ed tc ta aa sr rows = some res ↔
      ∃ st raws, parse_total_stats tc ta aa sr = some st ∧
        parse_rows rows = some raws ∧
        res = ⟨"success", raws.map applyProfit, st, ⟨pid, uk, sd, ed⟩⟩ := by
  constructor
  · intro h
    simp only [query_data, Option.bind_eq_bind, Option.bind_eq_some] at h
    obtain ⟨st, hst, raws, hraws, hres⟩ := h
    exact ⟨st, raws, hst, hraws, (Option.some.injEq _ _ ▸ hres).symm⟩
  · rintro ⟨st, raws, hst, hraws, rfl⟩
    simp [query_data, hst, hraws]

/-- A successful aggregate parse determines each field from its own text. -/
theorem parse_total_stats_eq {tc ta aa sr : Option String} {st : TotalStats} :
    parse_total_stats tc ta aa sr = some st →
      parse_total_count tc = some st.total_count ∧
      parse_amount_field ta = some st.total_amount ∧
      parse_amount_field aa = some st.average_amount ∧
      parse_success_rate sr = some st.success_rate := by
  intro h
  simp only [parse_total_stats, Option.bind_eq_bind, Option.bind_eq_some] at h
  obtain ⟨c, hc, a, ha, v, hv, r, hr, hst⟩ := h
  simp only [Option.some.injEq] at hst
  subst hst
  exact ⟨hc, ha, hv, hr⟩

/-- A kept row whose amount cell does not coerce poisons the whole row
parse. -/
theorem parse_rows_none_of_bad_row {rows : List (List String)} {row : List String} :
    row ∈ rows → row.length ≥ 5 →
    pyFloat (stripChar '¥' (stripChar ',' (pyStrip (row.getD 2 "")))) = none →
    parse_rows rows = none := by
  intro hmem h5 hbad
  induction rows with
  | nil => cases hmem
  | cons hd tl ih =>
      rcases List.mem_cons.mp hmem with rfl | hmem'
      · simp only [parse_rows]
        rw [if_pos h5, hbad]
      · simp only [parse_rows]
        split
        · rw [ih hmem']
          cases pyFloat (stripChar '¥' (stripChar ',' (pyStrip (hd.getD 2 "")))) <;> rfl
        · exact ih hmem'

/-- If any single aggregate field parser raises, the whole aggregate block
raises. -/
theorem parse_total_stats_none {tc ta aa sr : Option String} :
    (parse_total_count tc = none ∨ parse_amount_field ta = none ∨
      parse_amount_field aa = none ∨ parse_success_rate sr = none) →
    parse_total_stats tc ta aa sr = none := by
  intro h
  unfold parse_total_stats
  rcases h with h | h | h | h
  · simp [h]
  · cases parse_total_count tc <;> simp [h]
  · cases parse_total_count tc <;> cases parse_amount_field ta <;> simp [h]
  · cases parse_total_count tc <;> cases parse_amount_field ta <;>
      cases parse_amount_field aa <;> simp [h]

/-- A failed aggregate parse fails the whole `query_data` call. -/
theorem query_data_none_of_stats {pid uk sd ed : String} {tc ta aa sr : Option String}
    {rows : List (List String)} :
    parse_total_stats tc ta aa sr = none →
    query_data pid uk sd ed tc ta aa sr rows = none := by
  intro h
  simp [query_data, h]

/-- A failed row parse fails the whole `query_data` call. -/
theorem query_data_none_of_rows {pid uk sd ed : String} {tc ta aa sr : Option String}
    {rows : List (List String)} :
    parse_rows rows = none →
    query_data pid uk sd ed tc ta aa sr rows = none := by
  intro h
  cases hst : parse_total_stats tc ta aa sr <;> simp [query_data, hst, h]

/-! ## Claim theorems -/

/-- C1: in the state where Playwright is already started and the singleton
browser reports disconnected, `get_browser_context` does not tear down and
relaunch — its `init_playwright` call is a no-op because
`playwright_instance` is not `None` — so the context it returns is created
from the still-disconnected instance and a subsequent health check still
reports disconnected; by contrast the `/health` repair path
(`close_playwright` then `init_playwright`) from the same state does yield
a connected instance. -/
theorem get_browser_context_skips_relaunch :
    get_browser_context ⟨true, some ⟨false⟩⟩
      = (some ⟨false⟩, ⟨true, some ⟨false⟩⟩) ∧
    is_connected (get_browser_context ⟨true, some ⟨false⟩⟩).2.browser_instance
      = false ∧
    is_connected (health_check_repair ⟨true, some ⟨false⟩⟩).browser_instance
      = true := by
  decide

/-- C2: every record of a successful `query_data` call derives `profit`
from `amount` by the strict three-tier rule with the configured
coefficients 1.2, 0.8 and 1.0, and the boundary amounts 10000 and 1000
both take the default coefficient. -/
theorem profit_three_tier :
    (∀ (pid uk sd ed : String) (tc ta aa sr : Option String)
        (rows : List (List String)) (res : QueryResult),
      query_data pid uk sd ed tc ta aa sr rows = some res →
      ∀ rec ∈ res.data,
        rec.profit =
          (if rec.amount > 10000 then rec.amount * (6 / 5)
           else if rec.amount < 1000 then rec.amount * (4 / 5)
           else rec.amount * 1)) ∧
    computeProfit 10000 = 10000 * PROFIT_COEFFICIENTS.default ∧
    computeProfit 1000 = 1000 * PROFIT_COEFFICIENTS.default := by
  refine ⟨?_, by norm_num [computeProfit, PROFIT_COEFFICIENTS],
    by norm_num [computeProfit, PROFIT_COEFFICIENTS]⟩
  intro pid uk sd ed tc ta aa sr rows res h rec hrec
  obtain ⟨st, raws, -, -, rfl⟩ := query_data_some_iff.mp h
  obtain ⟨raw, -, rfl⟩ := List.mem_map.mp hrec
  simp [applyProfit, computeProfit, PROFIT_COEFFICIENTS]

/-- Witness for `profit_three_tier` at a concrete one-row query with
amount 500 (low tier, profit 400). -/
theorem profit_three_tier_witness :
    (⟨"a", "d", 500, "s", "x", 400⟩ : Record).profit =
      (if (500 : ℚ) > 10000 then (500 : ℚ) * (6 / 5)
       else if (500 : ℚ) < 1000 then (500 : ℚ) * (4 / 5)
       else (500 : ℚ) * 1) := by
  have happ := profit_three_tier.1 "p" "u" "s" "e" none none none none
    [["a", "d", "500", "s", "x"]]
    ⟨"success", [⟨"a", "d", 500, "s", "x", 400⟩], ⟨0, 0, 0, 0⟩,
      ⟨"p", "u", "s", "e"⟩⟩
    (by
      simp [query_data, parse_total_stats, parse_total_count,
        parse_amount_field, parse_success_rate, pyTruthy, parse_rows, pyFloat,
        pyStrip, stripChar, pyFloatCore, digitsToNat, applyProfit,
        computeProfit, PROFIT_COEFFICIENTS]
      norm_num)
    ⟨"a", "d", 500, "s", "x", 400⟩ (by simp)
  simpa using happ

/-- C3: one `cache_result` call behaves as get-or-compute: an entry stored
at time `ts` is returned from the cache, without running `f`, exactly when
`tCheck - ts < timeout`; on a missing or expired entry the call runs `f`,
returns its value, and stores it under `key` paired with the current
timestamp `tStore` (the fresh entry being visible afterwards as long as the
immediately following purge does not already expire it). -/
theorem cache_result_get_or_compute :
    ∀ {α : Type} (c : Cache α) (timeout : ℚ) (key : String) (f : Unit → α)
      (tCheck tStore tClean : ℚ),
      (∀ r ts, cacheLookup c key = some (r, ts) → tCheck - ts < timeout →
        cache_result c timeout key f tCheck tStore tClean = ⟨r, c, false⟩) ∧
      ((cacheLookup c key = none ∨
          ∃ r ts, cacheLookup c key = some (r, ts) ∧ ¬(tCheck - ts < timeout)) →
        (cache_result c timeout key f tCheck tStore tClean).computed = true ∧
        (cache_result c timeout key f tCheck tStore tClean).result = f () ∧
        (tClean - tStore ≤ timeout →
          cacheLookup (cache_result c timeout key f tCheck tStore tClean).cache
            key = some (f (), tStore))) := by
  intro α c timeout key f tCheck tStore tClean
  constructor
  · intro r ts hl hfresh
    unfold cache_result
    have hc : checkPhase c timeout key tCheck = some r := by
      unfold checkPhase
      rw [hl]
      simp [hfresh]
    rw [hc]
  · intro hmiss
    have hc : checkPhase c timeout key tCheck = none := by
      unfold checkPhase
      rcases hmiss with hl | ⟨r, ts, hl, hstale⟩
      · rw [hl]
      · rw [hl]
        simp [hstale]
    unfold cache_result
    rw [hc]
    exact ⟨rfl, rfl, fun hkeep =>
      cacheLookup_storePhase_self c key (f ()) tStore tClean timeout hkeep⟩

/-- Witness for `cache_result_get_or_compute`: a miss on the empty cache
runs the function, returns 37 and leaves the entry behind. -/
theorem cache_result_get_or_compute_witness :
    (cache_result ([] : Cache Nat) 300 "k" (fun _ => 37) 0 0 0).computed
      = true ∧
    (cache_result ([] : Cache Nat) 300 "k" (fun _ => 37) 0 0 0).result = 37 ∧
    cacheLookup (cache_result ([] : Cache Nat) 300 "k" (fun _ => 37) 0 0 0).cache
      "k" = some (37, 0) := by
  have happ := (cache_result_get_or_compute ([] : Cache Nat) 300 "k"
    (fun _ => 37) 0 0 0).2 (Or.inl rfl)
  exact ⟨happ.1, happ.2.1, happ.2.2 (by norm_num)⟩

/-- C4 counterexample: storing under key "fresh" at time 300 into a cache
holding an entry for "stale" inserted at time 0 with timeout 300 leaves the
"stale" entry in place (the purge removes only ages strictly above the
timeout), even though that entry now violates the validity condition
`now - timestamp < cache_timeout`. -/
theorem cache_purge_boundary_cex :
    cacheLookup (cache_result [("stale", ((7 : Nat), (0 : ℚ)))] 300 "fresh"
      (fun _ => 1) 300 300 300).cache "stale" = some (7, 0) ∧
    ¬((300 : ℚ) - 0 < 300) := by
  constructor
  · simp [cache_result, checkPhase, cacheLookup, storePhase, cacheStore,
      cachePurge]
  · norm_num

/-- C4 as amended: purging happens only in the store path — a hit leaves
the cache untouched — and after every store each surviving entry has age at
most the timeout (strictly older entries are removed), so an entry aged
exactly `timeout`, although already invalid, may remain. -/
theorem cache_purge_amended :
    ∀ {α : Type} (c : Cache α) (key : String) (r : α)
      (tStore tClean timeout : ℚ),
      (∀ e ∈ storePhase c key r tStore tClean timeout,
        tClean - e.2.2 ≤ timeout) ∧
      (∀ (f : Unit → α) (tCheck : ℚ) (rv : α),
        checkPhase c timeout key tCheck = some rv →
        (cache_result c timeout key f tCheck tStore tClean).cache = c) := by
  intro α c key r tStore tClean timeout
  constructor
  · intro e he
    have hp := (List.mem_filter.mp he).2
    simp only [Bool.not_eq_true', decide_eq_false_iff_not] at hp
    exact not_lt.mp hp
  · intro f tCheck rv hc
    unfold cache_result
    rw [hc]

/-- Witness for `cache_purge_amended`: after storing "b" at time 300 the
surviving boundary entry ("a", aged exactly 300) satisfies the age bound,
and a hit on a fresh entry leaves the cache unchanged. -/
theorem cache_purge_amended_witness :
    (300 : ℚ) - (0 : ℚ) ≤ 300 ∧
    (cache_result [("a", ((5 : Nat), (0 : ℚ)))] 300 "a" (fun _ => 9) 0 0 0).cache
      = [("a", (5, 0))] := by
  constructor
  · exact (cache_purge_amended [("a", ((5 : Nat), (0 : ℚ)))] "b" 3 300 300 300).1
      ("a", (5, 0))
      (by simp [storePhase, cacheStore, cachePurge])
  · exact (cache_purge_amended [("a", ((5 : Nat), (0 : ℚ)))] "a" 9 0 0 300).2
      (fun _ => 9) 0 5
      (by simp [checkPhase, cacheLookup])

/-- C5: the cache lock is released between the miss check and the compute,
so in the interleaving where two callers with the same key both check
before either stores, an absent entry makes both observe a miss and both
run the fetch function — the fetch count is 2, not 1. -/
theorem concurrent_miss_double_fetch :
    ∀ {α : Type} (c : Cache α) (timeout : ℚ) (key : String)
      (fA fB : Unit → α) (tA tB tSA tCA tSB tCB : ℚ),
      (cacheLookup c key = none → ∀ t, checkPhase c timeout key t = none) ∧
      (checkPhase c timeout key tA = none → checkPhase c timeout key tB = none →
        fetchCount (twoCallerSchedule c timeout key fA fB tA tB tSA tCA tSB tCB)
          = 2) := by
  intro α c timeout key fA fB tA tB tSA tCA tSB tCB
  constructor
  · intro hl t
    unfold checkPhase
    rw [hl]
  · intro hA hB
    simp [twoCallerSchedule, fetchCount, hA, hB]

/-- Witness for `concurrent_miss_double_fetch`: two callers racing on the
empty cache both fetch. -/
theorem concurrent_miss_double_fetch_witness :
    fetchCount (twoCallerSchedule ([] : Cache Nat) 300 "k"
      (fun _ => 1) (fun _ => 2) 0 0 1 1 2 2) = 2 := by
  have hnone := (concurrent_miss_double_fetch ([] : Cache Nat) 300 "k"
    (fun _ => 1) (fun _ => 2) 0 0 1 1 2 2).1 rfl
  exact (concurrent_miss_double_fetch ([] : Cache Nat) 300 "k"
    (fun _ => 1) (fun _ => 2) 0 0 1 1 2 2).2 (hnone 0) (hnone 0)

/-- C6: a result row with fewer than five cells is silently skipped and
contributes no record; a row with five or more cells is kept — only its
first five cells are consumed (extra cells are ignored) and they become the
record's id, date, amount, status and details. -/
theorem parse_rows_ragged :
    ∀ (row : List String) (rest : List (List String)),
      (row.length < 5 → parse_rows (row :: rest) = parse_rows rest) ∧
      (row.length ≥ 5 →
        parse_rows (row :: rest) = parse_rows (row.take 5 :: rest)) ∧
      (∀ amt rs, row.length ≥ 5 →
        pyFloat (stripChar '¥' (stripChar ',' (pyStrip (row.getD 2 ""))))
          = some amt →
        parse_rows rest = some rs →
        parse_rows (row :: rest) =
          some (⟨pyStrip (row.getD 0 ""), pyStrip (row.getD 1 ""), amt,
                 pyStrip (row.getD 3 ""), pyStrip (row.getD 4 "")⟩ :: rs)) := by
  intro row rest
  refine ⟨?_, ?_, ?_⟩
  · intro h
    simp only [parse_rows]
    rw [if_neg (by omega)]
  · intro h
    simp only [parse_rows]
    rw [if_pos h, if_pos (by rw [List.length_take]; omega),
      getD_take_of_lt row "" 0 5 (by omega), getD_take_of_lt row "" 1 5 (by omega),
      getD_take_of_lt row "" 2 5 (by omega), getD_take_of_lt row "" 3 5 (by omega),
      getD_take_of_lt row "" 4 5 (by omega)]
  · intro amt rs h5 hamt hrest
    simp only [parse_rows]
    rw [if_pos h5, hamt, hrest]

/-- Witness for `parse_rows_ragged`: a 4-cell row is dropped and a 6-cell
row is kept with only its first five cells consumed. -/
theorem parse_rows_ragged_witness :
    parse_rows [["a", "b", "c", "d"]] = parse_rows [] ∧
    parse_rows [["a", "d", "500", "s", "x", "extra"]]
      = some [⟨"a", "d", 500, "s", "x"⟩] := by
  constructor
  · exact (parse_rows_ragged ["a", "b", "c", "d"] []).1 (by norm_num)
  · have happ := (parse_rows_ragged ["a", "d", "500", "s", "x", "extra"] []).2.2
      500 [] (by norm_num)
      (by
        simp [pyFloat, pyStrip, stripChar, pyFloatCore, digitsToNat, List.getD])
      rfl
    rw [happ]
    simp [pyStrip, List.getD]

/-- C7 counterexample: the four aggregate parsers do not all strip both
commas and currency symbols — a currency symbol in the total-count text
makes the whole aggregate parse raise even though the text stripped of
commas and currency is numeric, and a comma in the success-rate text also
makes the parse raise. -/
theorem aggregate_strip_cex :
    parse_total_stats (some "¥5") (some "1") (some "1") (some "1%") = none ∧
    pyInt (stripChar '¥' (stripChar ',' (pyStrip "¥5"))) = some 5 ∧
    parse_total_stats (some "5") (some "1") (some "1") (some "1,5%") = none := by
  refine ⟨?_, by decide, ?_⟩
  · simp [parse_total_stats, parse_total_count, parse_amount_field,
      parse_success_rate, pyTruthy, pyInt, pyStrip, stripChar, pyFloat,
      pyFloatCore, digitsToNat]
  · simp [parse_total_stats, parse_total_count, parse_amount_field,
      parse_success_rate, pyTruthy, pyInt, pyStrip, stripChar, pyFloat,
      pyFloatCore, digitsToNat]

/-- C7 as amended: a missing or empty aggregate field yields its zero
default without failing the call, but the stripping is per-field —
total_count strips only commas, the two amount fields strip commas and the
currency symbol, and success_rate strips only the percent sign before
dividing by 100. -/
theorem aggregate_defaults_amended :
    (∀ tc ta aa sr : Option String, pyTruthy tc = false → pyTruthy ta = false →
      pyTruthy aa = false → pyTruthy sr = false →
      parse_total_stats tc ta aa sr = some ⟨0, 0, 0, 0⟩) ∧
    (∀ s n, pyInt (stripChar ',' (pyStrip s)) = some n →
      pyTruthy (some s) = true → parse_total_count (some s) = some n) ∧
    (∀ s q, pyFloat (stripChar '¥' (stripChar ',' (pyStrip s))) = some q →
      pyTruthy (some s) = true → parse_amount_field (some s) = some q) ∧
    (∀ s q, pyFloat (stripChar '%' (pyStrip s)) = some q →
      pyTruthy (some s) = true →
      parse_success_rate (some s) = some (q / 100)) ∧
    parse_total_stats (some "1,234") (some "¥1,234.5") (some "¥2.5")
      (some "75%") = some ⟨1234, 2469 / 2, 5 / 2, 3 / 4⟩ := by
  refine ⟨?_, ?_, ?_, ?_, ?_⟩
  · intro tc ta aa sr h1 h2 h3 h4
    simp [parse_total_stats, parse_total_count, parse_amount_field,
      parse_success_rate, h1, h2, h3, h4]
  · intro s n hn ht
    simp [parse_total_count, ht, hn]
  · intro s q hq ht
    simp [parse_amount_field, ht, hq]
  · intro s q hq ht
    simp [parse_success_rate, ht, hq]
  · simp [parse_total_stats, parse_total_count, parse_amount_field,
      parse_success_rate, pyTruthy, pyInt, pyStrip, stripChar, pyFloat,
      pyFloatCore, digitsToNat]
    norm_num

/-- Witness for `aggregate_defaults_amended`: absent and empty fields all
default to zero. -/
theorem aggregate_defaults_amended_witness :
    parse_total_stats none (some "") none (some "") = some ⟨0, 0, 0, 0⟩ :=
  aggregate_defaults_amended.1 none (some "") none (some "")
    rfl (by decide) rfl (by decide)

/-- C8 counterexample: the pipeline imposes no bounds on the aggregate
stats — aggregate texts "-5" and "150%" yield a negative total_count and a
success_rate above 1 in the returned result. -/
theorem stats_bounds_cex :
    (query_data "p" "u" "s" "e" (some "-5") (some "1") (some "1")
        (some "150%") []).map
        (fun res => (res.stats.total_count, res.stats.success_rate))
      = some (-5, 3 / 2) ∧
    ¬((0 : ℤ) ≤ -5) ∧ ¬((3 : ℚ) / 2 ≤ 1) := by
  refine ⟨?_, by norm_num, by norm_num⟩
  simp [query_data, parse_total_stats, parse_total_count, parse_amount_field,
    parse_success_rate, pyTruthy, pyInt, pyStrip, stripChar, pyFloat,
    pyFloatCore, digitsToNat, parse_rows]
  norm_num

/-- C8 as amended: the data-model bounds are not enforced by the code; they
hold exactly when the remote aggregate text is well-behaved — a missing
count or rate text defaults to 0, a count text parsing to a non-negative
integer gives total_count ≥ 0, and a rate text parsing to a percentage in
[0, 100] gives success_rate in [0, 1]. -/
theorem stats_bounds_amended :
    ∀ (pid uk sd ed : String) (tc ta aa sr : Option String)
      (rows : List (List String)) (res : QueryResult),
      query_data pid uk sd ed tc ta aa sr rows = some res →
      (pyTruthy tc = false → res.stats.total_count = 0) ∧
      (pyTruthy sr = false → res.stats.success_rate = 0) ∧
      (∀ n, pyInt (stripChar ',' (pyStrip (tc.getD ""))) = some n → 0 ≤ n →
        0 ≤ res.stats.total_count) ∧
      (∀ q, pyFloat (stripChar '%' (pyStrip (sr.getD ""))) = some q →
        0 ≤ q → q ≤ 100 →
        0 ≤ res.stats.success_rate ∧ res.stats.success_rate ≤ 1) := by
  intro pid uk sd ed tc ta aa sr rows res h
  obtain ⟨st, raws, hst, -, rfl⟩ := query_data_some_iff.mp h
  obtain ⟨hc, -, -, hr⟩ := parse_total_stats_eq hst
  refine ⟨?_, ?_, ?_, ?_⟩
  · intro hf
    simp only [parse_total_count, hf, Bool.false_eq_true, if_false,
      Option.some.injEq] at hc
    exact hc.symm
  · intro hf
    simp only [parse_success_rate, hf, Bool.false_eq_true, if_false,
      Option.some.injEq] at hr
    exact hr.symm
  · intro n hn hpos
    cases hf : pyTruthy tc with
    | false =>
        simp only [parse_total_count, hf, Bool.false_eq_true, if_false,
          Option.some.injEq] at hc
        exact hc ▸ le_refl 0
    | true =>
        simp only [parse_total_count, hf, if_true, hn, Option.some.injEq] at hc
        exact hc ▸ hpos
  · intro q hq hq0 hq100
    cases hf : pyTruthy sr with
    | false =>
        simp only [parse_success_rate, hf, Bool.false_eq_true, if_false,
          Option.some.injEq] at hr
        have h0 : st.success_rate = 0 := hr.symm
        refine ⟨show (0 : ℚ) ≤ st.success_rate from ?_,
          show st.success_rate ≤ 1 from ?_⟩ <;> simp [h0]
    | true =>
        simp only [parse_success_rate, hf, if_true, hq, Option.map_some',
          Option.some.injEq] at hr
        have h0 : st.success_rate = q / 100 := hr.symm
        refine ⟨show (0 : ℚ) ≤ st.success_rate from ?_,
          show st.success_rate ≤ 1 from ?_⟩
        · rw [h0]
          positivity
        · rw [h0, div_le_one (by norm_num)]
          linarith

/-- Witness for `stats_bounds_amended` at a well-behaved page: count text
"5" and rate text "75%" give total_count 5 ≥ 0 and success_rate 3/4 in
[0, 1]. -/
theorem stats_bounds_amended_witness :
    (0 : ℤ) ≤ (⟨5, 1, 1, 3 / 4⟩ : TotalStats).total_count ∧
    (0 : ℚ) ≤ (⟨5, 1, 1, 3 / 4⟩ : TotalStats).success_rate ∧
    (⟨5, 1, 1, 3 / 4⟩ : TotalStats).success_rate ≤ 1 := by
  have happ := stats_bounds_amended "p" "u" "s" "e" (some "5") (some "1")
    (some "1") (some "75%") []
    ⟨"success", [], ⟨5, 1, 1, 3 / 4⟩, ⟨"p", "u", "s", "e"⟩⟩
    (by
      simp [query_data, parse_total_stats, parse_total_count,
        parse_amount_field, parse_success_rate, pyTruthy, pyInt, pyStrip,
        stripChar, pyFloat, pyFloatCore, digitsToNat, parse_rows]
      norm_num)
  have h75 : pyFloat (stripChar '%' (pyStrip ((some "75%").getD ""))) = some 75 := by
    simp [pyFloat, pyStrip, stripChar, pyFloatCore, digitsToNat]
  have h5 : pyInt (stripChar ',' (pyStrip ((some "5").getD ""))) = some 5 := by
    decide
  have hb := happ.2.2.2 75 h75 (by norm_num) (by norm_num)
  exact ⟨happ.2.2.1 5 h5 (by norm_num), hb.1, hb.2⟩

/-- C10: the zero-default tolerance covers only missing/empty text — a
truthy aggregate text that is not numeric after its stripping makes the
coercion raise, failing the entire `query_data` call, and a kept row (five
or more cells) whose amount cell is not numeric after the same stripping
likewise fails the entire call instead of being skipped. -/
theorem non_numeric_text_fails_call :
    ∀ (pid uk sd ed : String) (tc ta aa sr : Option String)
      (rows : List (List String)) (row : List String),
      (pyTruthy tc = true →
        pyInt (stripChar ',' (pyStrip (tc.getD ""))) = none →
        query_data pid uk sd ed tc ta aa sr rows = none) ∧
      (pyTruthy ta = true →
        pyFloat (stripChar '¥' (stripChar ',' (pyStrip (ta.getD "")))) = none →
        query_data pid uk sd ed tc ta aa sr rows = none) ∧
      (pyTruthy aa = true →
        pyFloat (stripChar '¥' (stripChar ',' (pyStrip (aa.getD "")))) = none →
        query_data pid uk sd ed tc ta aa sr rows = none) ∧
      (pyTruthy sr = true →
        pyFloat (stripChar '%' (pyStrip (sr.getD ""))) = none →
        query_data pid uk sd ed tc ta aa sr rows = none) ∧
      (row ∈ rows → row.length ≥ 5 →
        pyFloat (stripChar '¥' (stripChar ',' (pyStrip (row.getD 2 ""))))
          = none →
        query_data pid uk sd ed tc ta aa sr rows = none) := by
  intro pid uk sd ed tc ta aa sr rows row
  refine ⟨?_, ?_, ?_, ?_, ?_⟩
  · intro ht hbad
    exact query_data_none_of_stats
      (parse_total_stats_none (Or.inl (by simp [parse_total_count, ht, hbad])))
  · intro ht hbad
    exact query_data_none_of_stats (parse_total_stats_none
      (Or.inr (Or.inl (by simp [parse_amount_field, ht, hbad]))))
  · intro ht hbad
    exact query_data_none_of_stats (parse_total_stats_none
      (Or.inr (Or.inr (Or.inl (by simp [parse_amount_field, ht, hbad])))))
  · intro ht hbad
    exact query_data_none_of_stats (parse_total_stats_none
      (Or.inr (Or.inr (Or.inr (by simp [parse_success_rate, ht, hbad])))))
  · intro hmem h5 hbad
    exact query_data_none_of_rows (parse_rows_none_of_bad_row hmem h5 hbad)

/-- Witness for `non_numeric_text_fails_call`: a non-numeric total-count
text "abc" fails the whole call. -/
theorem non_numeric_text_fails_call_witness :
    query_data "p" "u" "s" "e" (some "abc") (some "1") (some "1")
      (some "1%") [] = none :=
  (non_numeric_text_fails_call "p" "u" "s" "e" (some "abc") (some "1")
    (some "1") (some "1%") [] []).1 (by decide) (by decide)

/-- C9: a request body that omits both `auth_key` and `app_id` always
passes authentication: `api_query` substitutes the configured defaults for
the absent fields and `validate_api_key` compares against exactly those
configured values. -/
theorem default_credentials_pass_auth :
    ∀ (cfg : ApiConfig) (r : ApiRequest),
      r.auth_key = none → r.app_id = none → api_query_auth cfg r = true := by
  intro cfg r h1 h2
  simp [api_query_auth, validate_api_key, extract_auth_key, extract_app_id,
    h1, h2]

/-- Witness for `default_credentials_pass_auth` on the stock configuration
and a request supplying only the four query parameters. -/
theorem default_credentials_pass_auth_witness :
    api_query_auth ⟨"your-auth-key", "your-app-id"⟩
      ⟨some "P1", some "UK9", some "2024-01-01", some "2024-01-31",
        none, none⟩ = true :=
  default_credentials_pass_auth ⟨"your-auth-key", "your-app-id"⟩
    ⟨some "P1", some "UK9", some "2024-01-01", some "2024-01-31",
      none, none⟩ rfl rfl

end AppV3
